import Mathlib

/-!
# Verification of the dental-radiograph screening backend

Shallow embedding of the decision logic of the repository
`Back-deteccion-anomalias-dentales`:

* `app/image_validator.py` — file/extension gates, the x-ray heuristic
  classifier and the soft panoramic check;
* `app/inference.py` — the FDI tooth mapper and the detection aggregator;
* `app/router.py` — the `/fdi-info/{n}` endpoint.

Numeric conventions: Python floats are embedded as exact rationals (`ℚ`);
machine byte channels as `ℕ`.  `numpy.std() < 12` is embedded as
`variance < 144`, which is equivalent for the non-negative square root.
-/

namespace Dental

/-! ## FDI mapper (`app/inference.py`, `calculate_fdi`) -/

/-- Python's `x % m` for a positive modulus `m` (result in `[0, m)`,
sign of the divisor), as used by `x_center_norm % 0.5`. -/
def pymod (x m : ℚ) : ℚ := x - m * ⌊x / m⌋

/-- `calculate_fdi` from `app/inference.py`.  `int(...)` truncates toward
zero; the operand `relative_x * 8` is non-negative, so truncation is `⌊·⌋`. -/
def calculate_fdi (x_center_norm y_center_norm : ℚ) : ℤ :=
  let quadrant : ℤ :=
    if y_center_norm < 1/2 then
      (if x_center_norm < 1/2 then 1 else 2)
    else
      (if x_center_norm < 1/2 then 4 else 3)
  let relative_x : ℚ := pymod x_center_norm (1/2) / (1/2)
  let tooth_position : ℤ := min (⌊relative_x * 8⌋ + 1) 8
  quadrant * 10 + tooth_position

/-- The quadrant selected by `calculate_fdi`, spelled out for statements. -/
def fdiQuadrant (x y : ℚ) : ℤ :=
  if y < 1/2 then (if x < 1/2 then 1 else 2) else (if x < 1/2 then 4 else 3)

/-- The within-quadrant position selected by `calculate_fdi`. -/
def fdiPosition (x : ℚ) : ℤ :=
  min (⌊(pymod x (1/2) / (1/2)) * 8⌋ + 1) 8

lemma calculate_fdi_eq (x y : ℚ) :
    calculate_fdi x y = fdiQuadrant x y * 10 + fdiPosition x := rfl

lemma pymod_half_nonneg (x : ℚ) : 0 ≤ pymod x (1/2) := by
  unfold pymod
  have h := Int.sub_one_lt_floor (x / (1/2))
  have h2 : (⌊x / (1/2)⌋ : ℚ) ≤ x / (1/2) := Int.floor_le _
  nlinarith [h2]

lemma pymod_half_lt (x : ℚ) : pymod x (1/2) < 1/2 := by
  unfold pymod
  have h := Int.lt_floor_add_one (x / (1/2))
  nlinarith [h]

lemma fdiPosition_bounds (x : ℚ) : 1 ≤ fdiPosition x ∧ fdiPosition x ≤ 8 := by
  unfold fdiPosition
  have h0 := pymod_half_nonneg x
  have h1 := pymod_half_lt x
  have hge : (0 : ℤ) ≤ ⌊(pymod x (1/2) / (1/2)) * 8⌋ := by
    apply Int.floor_nonneg.mpr
    positivity
  constructor
  · have : (1 : ℤ) ≤ min (⌊(pymod x (1/2) / (1/2)) * 8⌋ + 1) 8 := by
      apply le_min (by omega) (by norm_num)
    exact this
  · exact min_le_right _ _

lemma fdiQuadrant_cases (x y : ℚ) :
    fdiQuadrant x y = 1 ∨ fdiQuadrant x y = 2 ∨
    fdiQuadrant x y = 3 ∨ fdiQuadrant x y = 4 := by
  unfold fdiQuadrant
  split_ifs <;> simp

/-! ## Tooth-lookup endpoint (`app/router.py`, `get_fdi_info`) -/

/-- Python dict `quadrant_names.get(q, "Desconocido")`. -/
def quadrant_names (q : ℤ) : String :=
  if q = 1 then "Superior Derecho"
  else if q = 2 then "Superior Izquierdo"
  else if q = 3 then "Inferior Izquierdo"
  else if q = 4 then "Inferior Derecho"
  else "Desconocido"

/-- Python dict `tooth_names.get(p, "Desconocido")`. -/
def tooth_names (p : ℤ) : String :=
  if p = 1 then "Incisivo Central"
  else if p = 2 then "Incisivo Lateral"
  else if p = 3 then "Canino"
  else if p = 4 then "Primer Premolar"
  else if p = 5 then "Segundo Premolar"
  else if p = 6 then "Primer Molar"
  else if p = 7 then "Segundo Molar"
  else if p = 8 then "Tercer Molar (Muela del Juicio)"
  else "Desconocido"

/-- Successful response body of `GET /fdi-info/{n}`. -/
structure FdiInfo where
  fdi : ℤ
  quadrant : ℤ
  quadrant_name : String
  position : ℤ
  tooth_name : String
  tooth_type : String
  deriving Repr, DecidableEq

/-- `get_fdi_info` from `app/router.py`.  `.error (400, msg)` embeds
`HTTPException(400, msg)`; Python `//` and `%` on ints are floor division
and modulus, matching `Int.ediv`/`Int.emod` for the positive divisor 10. -/
def get_fdi_info (fdi_number : ℤ) : Except (ℕ × String) FdiInfo :=
  if fdi_number < 11 ∨ 48 < fdi_number ∨ fdi_number % 10 = 0 ∨ 8 < fdi_number % 10 then
    .error (400, "Número FDI inválido. Debe ser 11-18, 21-28, 31-38 o 41-48")
  else
    let quadrant := fdi_number / 10
    let position := fdi_number % 10
    .ok {
      fdi := fdi_number
      quadrant := quadrant
      quadrant_name := quadrant_names quadrant
      position := position
      tooth_name := tooth_names position
      tooth_type :=
        if quadrant = 5 ∨ quadrant = 6 ∨ quadrant = 7 ∨ quadrant = 8 then
          "Temporal (Deciduo)"
        else "Permanente" }

/-- Whether the endpoint answered successfully. -/
def fdiOk (n : ℤ) : Bool := (get_fdi_info n).isOk

/-! ## Pixel model (`app/image_validator.py`, statistics inputs)

An 8-bit RGB raster as decoded by PIL.  The code derives two channels from
the same raster: the HSV saturation plane (`img.convert("HSV")`) and the
luminance plane (`img.convert("L")`).  Both conversions are embedded with
PIL's formulas in exact integer arithmetic. -/

/-- An 8-bit RGB pixel (channel values 0–255). -/
structure RGB where
  r : ℕ
  g : ℕ
  b : ℕ
  deriving Repr, DecidableEq

/-- PIL `convert("L")` luminance (ITU-R 601-2, exact integer arithmetic in
PIL's C code): `L = (19595 R + 38470 G + 7471 B) >> 16`. -/
def grayByte (p : RGB) : ℕ := (19595 * p.r + 38470 * p.g + 7471 * p.b) / 65536

/-- PIL `convert("HSV")` saturation byte: `0` when `max = min`, otherwise
the truncation of `255 * (max − min) / max`.  (PIL computes this in C
`float` arithmetic before truncating; this is the exact-arithmetic value,
which agrees on all pixels used below.) -/
def satByte (p : RGB) : ℕ :=
  let maxc := max p.r (max p.g p.b)
  let minc := min p.r (min p.g p.b)
  if maxc = minc then 0 else 255 * (maxc - minc) / maxc

/-- A decoded PIL image: dimensions plus the row-major pixel list. -/
structure PILImage where
  width : ℕ
  height : ℕ
  pixels : List RGB
  deriving Repr, DecidableEq

/-- `np.array(img.convert("HSV")).astype(float)[:, :, 1] / 255.0`. -/
def satVals (img : PILImage) : List ℚ :=
  img.pixels.map (fun p => (satByte p : ℚ) / 255)

/-- `np.array(img.convert("L")).astype(float)`. -/
def grayVals (img : PILImage) : List ℚ :=
  img.pixels.map (fun p => (grayByte p : ℚ))

/-- `arr.mean()` (with `ℚ`'s `x / 0 = 0` on the empty array, which PIL
cannot produce). -/
def mean (l : List ℚ) : ℚ := l.sum / l.length

/-- `(arr > t).sum() / arr.size` — fraction of entries strictly above `t`. -/
def fracGt (l : List ℚ) (t : ℚ) : ℚ :=
  ((l.filter (fun x => t < x)).length : ℚ) / l.length

/-- `(arr < t).mean()` — fraction of entries strictly below `t`. -/
def fracLt (l : List ℚ) (t : ℚ) : ℚ :=
  ((l.filter (fun x => x < t)).length : ℚ) / l.length

/-- `((arr >= a) & (arr <= b)).mean()`. -/
def fracBetween (l : List ℚ) (a b : ℚ) : ℚ :=
  ((l.filter (fun x => a ≤ x ∧ x ≤ b)).length : ℚ) / l.length

/-- Population variance.  `numpy`'s `arr.std()` is its non-negative square
root, so the code's comparison `std < 12` is exactly `variance < 144`. -/
def variance (l : List ℚ) : ℚ := mean (l.map (fun x => (x - mean l) ^ 2))

/-! ## X-ray heuristic (`app/image_validator.py`, `validate_is_xray`) -/

/-- Which gate of `validate_is_xray` fires (`ok` = all gates passed). -/
inductive XrayCheck where
  | color
  | lowContrast
  | comic
  | pattern
  | ok
  deriving Repr, DecidableEq

/-- `validate_is_xray` from `app/image_validator.py`: the ordered gate
pipeline on the decoded raster.  The saturation stage is the single
combined rule `strong_color_ratio > 0.25 or medium_color_ratio > 0.60 or
mean_saturation > 0.18`; the contrast gate is `std < 12` (embedded as
`variance < 144`); then the comic and intensity-pattern gates. -/
def validate_is_xray (img : PILImage) : XrayCheck :=
  let s := satVals img
  let strong_color_ratio := fracGt s (35/100)
  let medium_color_ratio := fracGt s (20/100)
  let mean_saturation := mean s
  if strong_color_ratio > 25/100 ∨ medium_color_ratio > 60/100 ∨
      mean_saturation > 18/100 then
    .color
  else
    let g := grayVals img
    if variance g < 144 then .lowContrast
    else
      let dark_ratio := fracLt g 50
      let bright_ratio := fracGt g 200
      let mid_ratio := fracBetween g 50 200
      if mid_ratio < 25/100 ∧ (dark_ratio > 30/100 ∨ bright_ratio > 30/100) then
        .comic
      else if dark_ratio < 1/100 ∨ bright_ratio < 2/1000 then .pattern
      else .ok

/-- The rejection message attached to each gate of `validate_is_xray`
(`""` for acceptance; the accept path's message lives in
`validate_dental_xray`). -/
def xrayMsg : XrayCheck → String
  | .color =>
      "La imagen contiene demasiados píxeles a color. Las radiografías dentales reales se presentan en escala de grises (tonos blanco, gris y negro, con saturación muy baja)."
  | .lowContrast =>
      "La imagen tiene muy poco contraste para ser una radiografía dental útil."
  | .comic =>
      "La imagen parece ser un dibujo en blanco y negro (cómic o ilustración), no una radiografía dental."
  | .pattern =>
      "La imagen no presenta el patrón de intensidades típico de una radiografía dental."
  | .ok => ""

/-- The score returned with the color rejection: `mean_saturation * 100.0`. -/
def colorScore (img : PILImage) : ℚ := mean (satVals img) * 100

/-- Branch labels of the spec's claimed four-branch saturation rule. -/
inductive SpecSatBranch where
  | meanHigh
  | strongMany
  | mediumCombo
  | mediumMany
  | pass
  deriving Repr, DecidableEq

/-- The saturation stage as the SPEC words it (ordered four-branch rule);
written from the spec, for comparison with `validate_is_xray` only. -/
def specSaturationRule (img : PILImage) : SpecSatBranch :=
  let s := satVals img
  if mean s > 10/100 then .meanHigh
  else if fracGt s (35/100) > 10/100 then .strongMany
  else if mean s > 5/100 ∧ fracGt s (20/100) > 40/100 then .mediumCombo
  else if fracGt s (20/100) > 45/100 then .mediumMany
  else .pass

/-- A one-pixel image whose only pixel is `RGB (255, 224, 224)`
(saturation byte `31`, i.e. mean saturation `31/255 ≈ 0.122`). -/
def pinkImg : PILImage := ⟨1, 1, [⟨255, 224, 224⟩]⟩

/-- A one-pixel mid-gray image (used to instantiate gate theorems). -/
def grayPixelImg : PILImage := ⟨1, 1, [⟨128, 128, 128⟩]⟩

/-- The uniform mid-gray 800×400 image of the spec's concrete scenario:
every pixel is `RGB (128, 128, 128)`. -/
def uniformGrayImg : PILImage := ⟨800, 400, List.replicate 320000 ⟨128, 128, 128⟩⟩

/-! ## File gate (`app/image_validator.py`, `validate_image_file`) -/

/-- A filename, as its character list. -/
abbrev Str := List Char

/-- `filename.lower()` (the extensions involved are ASCII, where Python's
`str.lower` agrees with per-character `Char.toLower`). -/
def pyLower (s : Str) : Str := s.map Char.toLower

/-- `valid_extensions` from `validate_image_file`. -/
def valid_extensions : List Str :=
  [".jpg".data, ".jpeg".data, ".png".data, ".bmp".data, ".tiff".data, ".tif".data]

/-- The video extensions checked by `validate_image_file`. -/
def video_extensions : List Str :=
  [".mp4".data, ".avi".data, ".mov".data, ".wmv".data]

/-- The ASCII bytes of the `%PDF` signature (`b"%PDF"`). -/
def pdfMagic : List ℕ := [37, 80, 68, 70]

/-- Outcome of `validate_image_file` (each rejection constructor is one
`return False` site; `okImage` carries the decoded image). -/
inductive FileCheck where
  | pdfExt
  | videoFile
  | unsupported
  | disguisedPdf
  | corrupt
  | tooBig (w h : ℕ)
  | okImage (img : PILImage)
  deriving Repr, DecidableEq

/-- `validate_image_file` from `app/image_validator.py`.  `decoded` stands
for the result of `PIL.Image.open(io.BytesIO(file_bytes)).convert("RGB")`
(`none` = decode exception), external to the embedded logic; the gates run
in source order: extension, `%PDF` magic bytes, decode, maximum size. -/
def validate_image_file (file_bytes : List ℕ) (filename : Str)
    (decoded : Option PILImage) : FileCheck :=
  let file_lower := pyLower filename
  if ¬ (valid_extensions.any (fun e => e.isSuffixOf file_lower)) then
    if (".pdf".data).isSuffixOf file_lower then .pdfExt
    else if video_extensions.any (fun e => e.isSuffixOf file_lower) then .videoFile
    else .unsupported
  else if file_bytes.take 4 = pdfMagic then .disguisedPdf
  else
    match decoded with
    | none => .corrupt
    | some img =>
        if 10000 < img.width ∨ 10000 < img.height then .tooBig img.width img.height
        else .okImage img

/-- The user-facing message of each `validate_image_file` outcome. -/
def fileMsg : FileCheck → String
  | .pdfExt =>
      "Archivo PDF detectado. Por favor exporta el PDF como imagen (JPG/PNG) antes de subirlo."
  | .videoFile =>
      "Se detectó un archivo de video. Sube una imagen de radiografía."
  | .unsupported =>
      "Tipo de archivo no soportado. Solo se aceptan imágenes: JPG, JPEG, PNG, BMP, TIFF."
  | .disguisedPdf =>
      "El archivo parece ser un PDF disfrazado de imagen. Exporta la radiografía como imagen real."
  | .corrupt =>
      "El archivo está corrupto o no es una imagen válida."
  | .tooBig w h =>
      "La imagen es demasiado grande (" ++ toString w ++ "x" ++ toString h ++
        "px). Máximo 10000x10000px."
  | .okImage _ => ""

/-! ## Soft panoramic check and main pipeline
(`app/image_validator.py`, `soft_check_panoramic`, `validate_dental_xray`) -/

/-- Two-decimal rendering of a non-negative rational, embedding Python's
`f"{x:.2f}"`.  (Python rounds the double half-to-even; this rounds halves
up — the two agree away from exact half-hundredths, and no claim involves
a tie.) -/
def fmt2 (q : ℚ) : String :=
  let n : ℤ := round (q * 100)
  toString (n / 100) ++ "." ++
    (let r := (n % 100).toNat
     if r < 10 then "0" ++ toString r else toString r)

/-- `soft_check_panoramic` from `app/image_validator.py`: returns
`(is_panoramic_like, info_message, aspect_ratio)`, never used to reject. -/
def soft_check_panoramic (img : PILImage) : Bool × String × ℚ :=
  let aspect_ratio : ℚ := (img.width : ℚ) / (img.height : ℚ)
  if 14/10 ≤ aspect_ratio ∧ aspect_ratio ≤ 4 then (true, "", aspect_ratio)
  else
    (false,
     "Relación ancho/alto " ++ fmt2 aspect_ratio ++ ":1 (podría no ser panorámica).",
     aspect_ratio)

/-- The `details` dict of `validate_dental_xray`.  (The float field
`xray_confidence` — whose value is the irrational `std`-based score in two
branches — is used by no stated property and is not carried.) -/
structure XrayDetails where
  is_valid_image : Bool
  is_xray : Bool
  is_panoramic : Bool
  panoramic_confidence : ℚ
  deriving Repr, DecidableEq

/-- The `(is_valid, message, details)` result of `validate_dental_xray`. -/
structure ValidationResult where
  is_valid : Bool
  message : String
  details : XrayDetails
  deriving Repr, DecidableEq

/-- `validate_dental_xray` from `app/image_validator.py`: file gate, then
x-ray heuristic, then the non-blocking panoramic advisory. -/
def validate_dental_xray (file_bytes : List ℕ) (filename : Str)
    (decoded : Option PILImage) : ValidationResult :=
  match validate_image_file file_bytes filename decoded with
  | .okImage img =>
      match validate_is_xray img with
      | .ok =>
          let pano := soft_check_panoramic img
          if pano.1 then
            { is_valid := true
              message := "✅ Radiografía dental válida (formato compatible con panorámica)."
              details := ⟨true, true, true, pano.2.2⟩ }
          else
            { is_valid := true
              message := "✅ Radiografía dental válida. Nota: por su formato podría no ser panorámica (periapical/bitewing u otro tipo)."
              details := ⟨true, true, false, pano.2.2⟩ }
      | c =>
          { is_valid := false, message := xrayMsg c
            details := ⟨true, false, false, 0⟩ }
  | c =>
      { is_valid := false, message := fileMsg c
        details := ⟨false, false, false, 0⟩ }

/-- A 2×2 image (black, white, and two mid-gray pixels) that passes every
hard gate of the x-ray heuristic. -/
def xrayOkImg : PILImage :=
  ⟨2, 2, [⟨0, 0, 0⟩, ⟨255, 255, 255⟩, ⟨128, 128, 128⟩, ⟨128, 128, 128⟩]⟩

/-! ## Detections and aggregation (`app/inference.py`, `run_inference`) -/

/-- `CLASS_NAMES` from `app/inference.py`.  Class ids are `Fin 3`: the
detector interface guarantees `class_id ∈ {0,1,2}` (spec §6; the dict
accesses `class_counts[cid]` would raise `KeyError` otherwise), so the
`.get` default `f"cls_{cid}"` is never taken. -/
def CLASS_NAMES (c : Fin 3) : String :=
  if c = 0 then "Caries" else if c = 1 then "Diente_Retenido" else "Perdida_Osea"

/-- `CLASS_COLORS` from `app/inference.py` (RGB). -/
def CLASS_COLORS (c : Fin 3) : RGB :=
  if c = 0 then ⟨255, 0, 0⟩ else if c = 1 then ⟨0, 255, 0⟩ else ⟨0, 0, 255⟩

/-- One output box of the external detector (`box.xyxy`, `box.conf`,
`box.cls`): the collaborator interface of spec §6. -/
structure RawBox where
  x1 : ℚ
  y1 : ℚ
  x2 : ℚ
  y2 : ℚ
  conf : ℚ
  cls : Fin 3
  deriving Repr, DecidableEq

/-- Python `int(...)` on a float: truncation toward zero. -/
def pyint (q : ℚ) : ℤ := if 0 ≤ q then ⌊q⌋ else -⌊-q⌋

/-- One entry of the payload's `detections` list (the duplicated key
`fdi` = `tooth_fdi` is carried once). -/
structure Detection where
  class_id : Fin 3
  class_name : String
  confidence : ℚ
  bbox : ℤ × ℤ × ℤ × ℤ
  tooth_fdi : ℤ
  deriving Repr, DecidableEq

/-- The per-box processing of `run_inference`'s loop: center coordinates,
normalization by the image dimensions, FDI assignment. -/
def mkDetection (img : PILImage) (b : RawBox) : Detection :=
  let x_center := (b.x1 + b.x2) / 2
  let y_center := (b.y1 + b.y2) / 2
  let x_center_norm := x_center / img.width
  let y_center_norm := y_center / img.height
  let fdi_number := calculate_fdi x_center_norm y_center_norm
  { class_id := b.cls
    class_name := CLASS_NAMES b.cls
    confidence := b.conf
    bbox := (pyint b.x1, pyint b.y1, pyint b.x2, pyint b.y2)
    tooth_fdi := fdi_number }

/-- `class_counts` after the loop: `{0: 0, 1: 0, 2: 0}` updated by
`class_counts[cid] += 1` per detection. -/
def class_counts (dets : List Detection) : Fin 3 → ℕ :=
  dets.foldl (fun m d => Function.update m d.class_id (m d.class_id + 1)) (fun _ => 0)

/-- `class_conf` after the loop: per-class confidence lists, in order. -/
def class_conf (dets : List Detection) : Fin 3 → List ℚ :=
  dets.foldl (fun m d => Function.update m d.class_id (m d.class_id ++ [d.confidence]))
    (fun _ => [])

/-- The loop's duplicate-suppressing append:
`if fdi_number not in teeth_fdi_map[cname]: teeth_fdi_map[cname].append(...)`. -/
def insertFdi (l : List ℤ) (n : ℤ) : List ℤ := if n ∈ l then l else l ++ [n]

/-- `teeth_fdi_map` after the loop, keyed by class (the dict's three keys
are exactly the three class names). -/
def teeth_fdi_map (dets : List Detection) : Fin 3 → List ℤ :=
  dets.foldl
    (fun m d => Function.update m d.class_id (insertFdi (m d.class_id) d.tooth_fdi))
    (fun _ => [])

/-- `total = sum(class_counts.values())`. -/
def totalCount (dets : List Detection) : ℕ :=
  class_counts dets 0 + class_counts dets 1 + class_counts dets 2

/-- `per_class`: iterating `class_counts.items()` in key order `0,1,2`,
keeping only classes with positive count. -/
def per_class (dets : List Detection) : List (String × ℕ) :=
  (([0, 1, 2] : List (Fin 3)).filter (fun c => 0 < class_counts dets c)).map
    (fun c => (CLASS_NAMES c, class_counts dets c))

/-- `np.min` of a confidence list (`0` on the empty list, never taken). -/
def qmin : List ℚ → ℚ
  | [] => 0
  | x :: xs => xs.foldl min x

/-- `np.max` of a confidence list (`0` on the empty list, never taken). -/
def qmax : List ℚ → ℚ
  | [] => 0
  | x :: xs => xs.foldl max x

/-- `stats`: per class with positive count,
`(name, count, conf_avg, conf_min, conf_max)`. -/
def statsList (dets : List Detection) : List (String × ℕ × ℚ × ℚ × ℚ) :=
  (([0, 1, 2] : List (Fin 3)).filter (fun c => 0 < class_counts dets c)).map
    (fun c =>
      (CLASS_NAMES c, class_counts dets c, mean (class_conf dets c),
       qmin (class_conf dets c), qmax (class_conf dets c)))

/-- `sorted(fdi_list)` for one class — Python's `sorted` is an ascending
stable mergesort. -/
def sortedFdi (dets : List Detection) (c : Fin 3) : List ℤ :=
  (teeth_fdi_map dets c).mergeSort

/-- `", ".join(map(str, ...))`. -/
def joinComma (l : List ℤ) : String := String.intercalate ", " (l.map toString)

/-- One-decimal percent rendering, embedding Python's `f"{x:.1%}"` (same
half-up-vs-half-even caveat as `fmt2`). -/
def fmt1pct (q : ℚ) : String :=
  let n : ℤ := round (q * 1000)
  toString (n / 10) ++ "." ++ toString (n % 10).toNat ++ "%"

/-- The `report_lines` list built by section 7 of `run_inference`,
including its (unreachable, since this builder only runs with at least one
box) `total == 0` branch. -/
def report_lines (dets : List Detection) : List String :=
  ["ANÁLISIS DE RADIOGRAFÍA DENTAL", String.mk (List.replicate 50 '='), ""]
    ++ ["Total de detecciones: " ++ toString (totalCount dets) ++ "\n"]
    ++ (([0, 1, 2] : List (Fin 3)).filter (fun c => 0 < class_counts dets c)).flatMap
        (fun c =>
          [CLASS_NAMES c ++ ": " ++ toString (class_counts dets c) ++
             " (conf prom " ++ fmt1pct (mean (class_conf dets c)) ++ ")",
           "  └─ Dientes: " ++ joinComma (sortedFdi dets c)])
    ++ ["", "INTERPRETACIÓN:", String.mk (List.replicate 50 '-')]
    ++ (if 0 < class_counts dets 0 then
          ["⚠️ Caries detectadas en dientes: " ++ joinComma (sortedFdi dets 0)]
        else [])
    ++ (if 0 < class_counts dets 1 then
          ["⚠️ Dientes retenidos: " ++ joinComma (sortedFdi dets 1)]
        else [])
    ++ (if 0 < class_counts dets 2 then
          ["⚠️ Pérdida ósea en dientes: " ++ joinComma (sortedFdi dets 2)]
        else [])
    ++ (if totalCount dets = 0 then ["✅ Sin hallazgos significativos"] else [])
    ++ ["", "NOTA: Herramienta de apoyo. No reemplaza diagnóstico profesional."]

/-- `"\n".join(report_lines)`. -/
def report_text (dets : List Detection) : String :=
  String.intercalate "\n" (report_lines dets)

/-- The structured payload of `run_inference` (performance timings
omitted). -/
structure Payload where
  total : ℕ
  per_class : List (String × ℕ)
  detections : List Detection
  stats : List (String × ℕ × ℚ × ℚ × ℚ)
  report_text : String
  teeth_fdi : Fin 3 → List ℤ

/-- The fixed report text of the zero-detection early return. -/
def noDetectionsText : String := "No se detectaron problemas dentales en esta imagen."

/-- Substring containment on character lists (Python's `in` on `str`). -/
def containsSubstr (s sub : Str) : Bool :=
  s.tails.any (fun t => sub.isPrefixOf t)

/-- The fixed phrase of the report builder's `total == 0` branch
(`"✅ Sin hallazgos significativos"`, i.e. "no significant findings"),
without the leading check-mark. -/
def sinHallazgos : String := "Sin hallazgos significativos"

/-- The payload of the `len(boxes) == 0` early return: zero summary, empty
per-class dict, empty stats, the fixed no-detections text, and the
three-key teeth map with empty lists. -/
def zeroPayload : Payload :=
  { total := 0
    per_class := []
    detections := []
    stats := []
    report_text := noDetectionsText
    teeth_fdi := fun _ => [] }

/-! ### Drawing with explicit object identity (for the frame property)

`run_inference` binds the argument to `image`, makes
`img_draw = image.copy()`, and `draw = ImageDraw.Draw(img_draw)`; every
`draw.rectangle`/`draw.text` call writes through `draw`, hence into
`img_draw`.  The two PIL objects are modelled as slots of a heap (a list
of rasters): `image` at index 0, `img_draw` at index 1. -/

/-- Whether `(col, row)` lies on the width-3 outline drawn by
`draw.rectangle([(x1,y1),(x2,y2)], outline=color, width=3)`. -/
def onOutline (b : RawBox) (col row : ℤ) : Bool :=
  (pyint b.x1 ≤ col ∧ col ≤ pyint b.x2 ∧ pyint b.y1 ≤ row ∧ row ≤ pyint b.y2) ∧
    (col < pyint b.x1 + 3 ∨ pyint b.x2 - 3 < col ∨
     row < pyint b.y1 + 3 ∨ pyint b.y2 - 3 < row)

/-- Whether `(col, row)` lies in the label area filled above the box
(`draw.textbbox((x1, y1 - 25), ...)` then `draw.rectangle(..., fill)` and
`draw.text`; the font metrics are abstracted to the box's width — the
frame property does not depend on which pixels of the copy are painted). -/
def onLabel (b : RawBox) (col row : ℤ) : Bool :=
  pyint b.x1 ≤ col ∧ col ≤ pyint b.x2 ∧
    pyint b.y1 - 25 ≤ row ∧ row < pyint b.y1

/-- Painting one detection onto a raster: outline and label pixels take
the class color, all other pixels are kept. -/
def drawDetection (img : PILImage) (b : RawBox) : PILImage :=
  { img with
    pixels :=
      img.pixels.mapIdx (fun i p =>
        let col : ℤ := (i % img.width : ℕ)
        let row : ℤ := (i / img.width : ℕ)
        if onOutline b col row ∨ onLabel b col row then CLASS_COLORS b.cls else p) }

/-- The heap after the drawing section: `[image]`, then the copy is
appended (`img_draw = image.copy()` — index 1), then each loop iteration
repaints index 1 (the target of `ImageDraw.Draw(img_draw)`). -/
def drawHeap (image : PILImage) (boxes : List RawBox) : List PILImage :=
  let heap0 := [image]
  let heap1 := heap0 ++ [heap0.getD 0 image]
  boxes.foldl (fun h b => h.set 1 (drawDetection (h.getD 1 image) b)) heap1

/-- `run_inference` from `app/inference.py`: the external `model.predict`
result is the `boxes` parameter; timing and prints are omitted.  Returns
the annotated copy (heap index 1) and the aggregated payload. -/
def run_inference (image : PILImage) (boxes : List RawBox) : PILImage × Payload :=
  let heap := drawHeap image boxes
  let img_draw := heap.getD 1 image
  if boxes.length = 0 then
    (img_draw, zeroPayload)
  else
    let dets := boxes.map (mkDetection image)
    (img_draw,
     { total := totalCount dets
       per_class := per_class dets
       detections := dets
       stats := statsList dets
       report_text := report_text dets
       teeth_fdi := teeth_fdi_map dets })

/-- A concrete caries detection at tooth 11 (for instantiations). -/
def detA : Detection := ⟨0, "Caries", 1, (0, 0, 0, 0), 11⟩

/-- A concrete impacted-tooth detection at tooth 21 (for instantiations). -/
def detB : Detection := ⟨1, "Diente_Retenido", 1, (0, 0, 0, 0), 21⟩

end Dental

/-! ## Theorems for the FDI mapper and the tooth-lookup endpoint -/

namespace Dental

/-- C2: for every pair of normalized center coordinates in `[0,1]`,
`calculate_fdi` returns `quadrant * 10 + position` with the claimed quadrant
selection and `position = min (⌊((x mod 0.5) / 0.5) * 8⌋ + 1) 8`, and the
result `v` satisfies `11 ≤ v ≤ 48`, `v / 10 ∈ {1,2,3,4}` and
`1 ≤ v % 10 ≤ 8`. -/
theorem calculate_fdi_spec (x y : ℚ) (hx0 : 0 ≤ x) (hx1 : x ≤ 1)
    (hy0 : 0 ≤ y) (hy1 : y ≤ 1) :
    calculate_fdi x y = fdiQuadrant x y * 10 + fdiPosition x ∧
    (y < 1/2 → x < 1/2 → fdiQuadrant x y = 1) ∧
    (y < 1/2 → 1/2 ≤ x → fdiQuadrant x y = 2) ∧
    (1/2 ≤ y → x < 1/2 → fdiQuadrant x y = 4) ∧
    (1/2 ≤ y → 1/2 ≤ x → fdiQuadrant x y = 3) ∧
    fdiPosition x = min (⌊(pymod x (1/2) / (1/2)) * 8⌋ + 1) 8 ∧
    11 ≤ calculate_fdi x y ∧ calculate_fdi x y ≤ 48 ∧
    (calculate_fdi x y / 10 = 1 ∨ calculate_fdi x y / 10 = 2 ∨
     calculate_fdi x y / 10 = 3 ∨ calculate_fdi x y / 10 = 4) ∧
    1 ≤ calculate_fdi x y % 10 ∧ calculate_fdi x y % 10 ≤ 8 := by
  have hpos := fdiPosition_bounds x
  have hq := fdiQuadrant_cases x y
  have heq := calculate_fdi_eq x y
  refine ⟨heq, ?_, ?_, ?_, ?_, ?_, ?_, ?_, ?_, ?_, ?_⟩
  · intro h1 h2; unfold fdiQuadrant; rw [if_pos h1, if_pos h2]
  · intro h1 h2; unfold fdiQuadrant; rw [if_pos h1, if_neg (not_lt.mpr h2)]
  · intro h1 h2; unfold fdiQuadrant; rw [if_neg (not_lt.mpr h1), if_pos h2]
  · intro h1 h2; unfold fdiQuadrant; rw [if_neg (not_lt.mpr h1), if_neg (not_lt.mpr h2)]
  · rfl
  · rw [heq]; rcases hq with h | h | h | h <;> rw [h] <;> omega
  · rw [heq]; rcases hq with h | h | h | h <;> rw [h] <;> omega
  · rw [heq]; rcases hq with h | h | h | h <;> rw [h] <;> omega
  · rw [heq]; rcases hq with h | h | h | h <;> rw [h] <;> omega
  · rw [heq]; rcases hq with h | h | h | h <;> rw [h] <;> omega

/-- Witness for C2 at `(x, y) = (0.7, 0.3)`: the direct application of
`calculate_fdi_spec` with its hypotheses discharged concretely. -/
theorem calculate_fdi_spec_witness :
    calculate_fdi (7/10) (3/10) = fdiQuadrant (7/10) (3/10) * 10 + fdiPosition (7/10) ∧
    ((3:ℚ)/10 < 1/2 → (7:ℚ)/10 < 1/2 → fdiQuadrant (7/10) (3/10) = 1) ∧
    ((3:ℚ)/10 < 1/2 → (1:ℚ)/2 ≤ 7/10 → fdiQuadrant (7/10) (3/10) = 2) ∧
    ((1:ℚ)/2 ≤ 3/10 → (7:ℚ)/10 < 1/2 → fdiQuadrant (7/10) (3/10) = 4) ∧
    ((1:ℚ)/2 ≤ 3/10 → (1:ℚ)/2 ≤ 7/10 → fdiQuadrant (7/10) (3/10) = 3) ∧
    fdiPosition (7/10) = min (⌊(pymod (7/10) (1/2) / (1/2)) * 8⌋ + 1) 8 ∧
    11 ≤ calculate_fdi (7/10) (3/10) ∧ calculate_fdi (7/10) (3/10) ≤ 48 ∧
    (calculate_fdi (7/10) (3/10) / 10 = 1 ∨ calculate_fdi (7/10) (3/10) / 10 = 2 ∨
     calculate_fdi (7/10) (3/10) / 10 = 3 ∨ calculate_fdi (7/10) (3/10) / 10 = 4) ∧
    1 ≤ calculate_fdi (7/10) (3/10) % 10 ∧ calculate_fdi (7/10) (3/10) % 10 ≤ 8 :=
  calculate_fdi_spec (7/10) (3/10) (by norm_num) (by norm_num) (by norm_num) (by norm_num)

/-- C8: `get_fdi_info n` succeeds exactly when `n` lies in the valid FDI
ranges `{11–18, 21–28, 31–38, 41–48}`, and every `n` with `n % 10 = 0` or
`n % 10 > 8` (among all other out-of-range `n`) is rejected with HTTP 400. -/
theorem get_fdi_info_ranges (n : ℤ) :
    (fdiOk n = true ↔
      ((11 ≤ n ∧ n ≤ 18) ∨ (21 ≤ n ∧ n ≤ 28) ∨
       (31 ≤ n ∧ n ≤ 38) ∨ (41 ≤ n ∧ n ≤ 48))) ∧
    (n % 10 = 0 ∨ 8 < n % 10 →
      get_fdi_info n =
        .error (400, "Número FDI inválido. Debe ser 11-18, 21-28, 31-38 o 41-48")) := by
  unfold fdiOk get_fdi_info
  constructor
  · split_ifs with h
    · simp only [Except.isOk, Except.toBool]
      constructor
      · intro hc; cases hc
      · intro hc; omega
    · simp only [Except.isOk, Except.toBool, true_iff]
      omega
  · intro h
    rw [if_pos (by omega)]

/-- Witness for C8 at `n = 19` (position digit 9): rejected with HTTP 400. -/
theorem get_fdi_info_ranges_witness :
    get_fdi_info 19 =
      .error (400, "Número FDI inválido. Debe ser 11-18, 21-28, 31-38 o 41-48") :=
  (get_fdi_info_ranges 19).2 (by decide)

/-- C9: every FDI code accepted by `get_fdi_info` is reported as
`"Permanente"`: the `"Temporal (Deciduo)"` branch (quadrant ∈ {5,6,7,8}) is
unreachable under the endpoint's own validation. -/
theorem get_fdi_info_always_permanente (n : ℤ) (info : FdiInfo)
    (h : get_fdi_info n = .ok info) : info.tooth_type = "Permanente" := by
  unfold get_fdi_info at h
  split_ifs at h with hrange
  have hq : ¬ (n / 10 = 5 ∨ n / 10 = 6 ∨ n / 10 = 7 ∨ n / 10 = 8) := by omega
  simp only [if_neg hq] at h
  cases h
  rfl

/-- Witness for C9 at `n = 25`. -/
theorem get_fdi_info_always_permanente_witness :
    ∃ info, get_fdi_info 25 = .ok info ∧ info.tooth_type = "Permanente" := by
  refine ⟨_, rfl, get_fdi_info_always_permanente 25 _ rfl⟩

/-! ## Theorems about the x-ray heuristic -/

attribute [local semireducible] Rat.add Rat.sub Rat.mul Rat.inv in
/-- C1 counterexample: on the one-pixel image with saturation `31/255`
(≈ 0.122), the spec's four-branch rule fires its first branch
(mean saturation > 0.10), but the code's saturation stage does NOT reject
for color: the single combined rule of the code does not fire.  (`Rat`
arithmetic is made semireducible locally so `decide` can evaluate.) -/
theorem saturation_rule_counterexample :
    specSaturationRule pinkImg = .meanHigh ∧
    validate_is_xray pinkImg ≠ .color := by decide

/-- C1 (amended): the saturation stage rejects exactly when
`strong_color_ratio > 0.25` or `medium_color_ratio > 0.60` or
`mean_saturation > 0.18`; there is a single color-rejection branch, whose
returned score is `mean_saturation * 100`. -/
theorem validate_is_xray_color_iff (img : PILImage) :
    (validate_is_xray img = .color ↔
      (25/100 < fracGt (satVals img) (35/100) ∨
       60/100 < fracGt (satVals img) (20/100) ∨
       18/100 < mean (satVals img))) ∧
    colorScore img = mean (satVals img) * 100 := by
  constructor
  · simp only [validate_is_xray]
    split_ifs with h1 h2 h3 h4 <;> simp_all
  · rfl

lemma mean_replicate (n : ℕ) (a : ℚ) (hn : n ≠ 0) :
    mean (List.replicate n a) = a := by
  unfold mean
  rw [List.sum_replicate, List.length_replicate, nsmul_eq_mul]
  have hc : (n : ℚ) ≠ 0 := Nat.cast_ne_zero.mpr hn
  field_simp

lemma variance_replicate (n : ℕ) (a : ℚ) (hn : n ≠ 0) :
    variance (List.replicate n a) = 0 := by
  unfold variance
  simp only [mean_replicate n a hn, List.map_replicate, sub_self]
  norm_num [mean]

lemma filter_replicate_stat (n : ℕ) (a : ℚ) (p : ℚ → Bool) :
    (List.replicate n a).filter p = if p a then List.replicate n a else [] := by
  induction n with
  | zero => simp
  | succ n ih =>
      rw [List.replicate_succ, List.filter_cons, ih]
      split_ifs <;> simp_all [List.replicate_succ]

lemma satVals_uniformGray : satVals uniformGrayImg = List.replicate 320000 0 := by
  unfold satVals uniformGrayImg
  rw [List.map_replicate]
  norm_num [satByte]

lemma grayVals_uniformGray : grayVals uniformGrayImg = List.replicate 320000 128 := by
  unfold grayVals uniformGrayImg
  rw [List.map_replicate]
  norm_num [grayByte]

lemma fracGt_replicate_zero (t : ℚ) (ht : 0 < t) :
    fracGt (List.replicate 320000 0) t = 0 := by
  unfold fracGt
  rw [filter_replicate_stat]
  have hcond : decide (t < (0 : ℚ)) = false := decide_eq_false (not_lt.mpr ht.le)
  simp only [hcond, Bool.false_eq_true, if_false, List.length_nil]
  rw [Nat.cast_zero, zero_div]

/-- C6: among images that pass the saturation stage, `validate_is_xray`
rejects for low contrast exactly when the grayscale standard deviation is
below 12 (stated as `variance < 144 = 12²`); the uniform mid-gray 800×400
image (all pixels `RGB (128,128,128)`) passes the saturation stage
(saturation identically 0) and is rejected by the contrast gate, its
grayscale variance being `0 < 144`. -/
theorem contrast_gate_spec :
    (∀ img : PILImage, validate_is_xray img ≠ .color →
      (validate_is_xray img = .lowContrast ↔ variance (grayVals img) < 144)) ∧
    validate_is_xray uniformGrayImg = .lowContrast ∧
    variance (grayVals uniformGrayImg) = 0 := by
  refine ⟨?_, ?_, ?_⟩
  · intro img h
    simp only [validate_is_xray] at h ⊢
    split_ifs at h ⊢ <;> simp_all
  · simp only [validate_is_xray]
    rw [satVals_uniformGray, grayVals_uniformGray]
    have h35 : fracGt (List.replicate 320000 0) (35/100) = 0 :=
      fracGt_replicate_zero _ (by norm_num)
    have h20 : fracGt (List.replicate 320000 0) (20/100) = 0 :=
      fracGt_replicate_zero _ (by norm_num)
    have hm : mean (List.replicate 320000 (0 : ℚ)) = 0 :=
      mean_replicate _ _ (by norm_num)
    have hv : variance (List.replicate 320000 (128 : ℚ)) = 0 :=
      variance_replicate _ _ (by norm_num)
    rw [if_neg (by rw [h35, h20, hm]; norm_num), if_pos (by rw [hv]; norm_num)]
  · rw [grayVals_uniformGray]
    exact variance_replicate _ _ (by norm_num)

attribute [local semireducible] Rat.add Rat.sub Rat.mul Rat.inv in
/-- Witness for C6: the one-pixel mid-gray image passes the saturation
stage and instantiates the contrast-gate equivalence. -/
theorem contrast_gate_spec_witness :
    validate_is_xray grayPixelImg ≠ .color ∧
    (validate_is_xray grayPixelImg = .lowContrast ↔
      variance (grayVals grayPixelImg) < 144) :=
  ⟨by decide, contrast_gate_spec.1 grayPixelImg (by decide)⟩

/-! ## Theorems about the file gate and the pipeline -/

lemma not_valid_ext_of_other_suffix {name e : Str}
    (he : e ∈ (".pdf".data) :: video_extensions)
    (h : e.isSuffixOf name = true) :
    valid_extensions.any (fun v => v.isSuffixOf name) = false := by
  rw [List.any_eq_false]
  intro v hv
  rw [List.isSuffixOf_iff_suffix] at h
  rw [Bool.not_eq_true, Bool.eq_false_iff, Ne, List.isSuffixOf_iff_suffix]
  intro hsuf
  have htot := List.suffix_or_suffix_of_suffix hsuf h
  fin_cases hv <;> fin_cases he <;> revert htot <;> decide

lemma pdf_not_suffix_of_video {name : Str}
    (h : video_extensions.any (fun e => e.isSuffixOf name) = true) :
    (".pdf".data).isSuffixOf name = false := by
  rw [List.any_eq_true] at h
  obtain ⟨e, he, hsuf⟩ := h
  rw [List.isSuffixOf_iff_suffix] at hsuf
  rw [Bool.eq_false_iff, Ne, List.isSuffixOf_iff_suffix]
  intro hp
  have htot := List.suffix_or_suffix_of_suffix hp hsuf
  fin_cases he <;> revert htot <;> decide

/-- C5: the extension gate yields three distinct rejection messages
(`.pdf`-specific, video-specific, generic unsupported), all distinct from
the disguised-PDF message; a lowercased filename ending in `.pdf` is
always answered with the PDF-extension outcome, one ending in a video
extension with the video outcome, and any other non-image extension with
the generic outcome; and the extension gate runs before the magic-byte
gate: `scan.pdf` with `%PDF` bytes gets the PDF-extension outcome while
`scan.png` with `%PDF` bytes gets the disguised-PDF outcome. -/
theorem extension_gate_spec :
    (fileMsg .pdfExt ≠ fileMsg .videoFile ∧ fileMsg .pdfExt ≠ fileMsg .unsupported ∧
     fileMsg .videoFile ≠ fileMsg .unsupported ∧ fileMsg .pdfExt ≠ fileMsg .disguisedPdf) ∧
    (∀ (file_bytes : List ℕ) (decoded : Option PILImage) (name : Str),
        (".pdf".data).isSuffixOf (pyLower name) = true →
        validate_image_file file_bytes name decoded = .pdfExt) ∧
    (∀ (file_bytes : List ℕ) (decoded : Option PILImage) (name : Str),
        video_extensions.any (fun e => e.isSuffixOf (pyLower name)) = true →
        validate_image_file file_bytes name decoded = .videoFile) ∧
    (∀ (file_bytes : List ℕ) (decoded : Option PILImage) (name : Str),
        valid_extensions.any (fun e => e.isSuffixOf (pyLower name)) = false →
        (".pdf".data).isSuffixOf (pyLower name) = false →
        video_extensions.any (fun e => e.isSuffixOf (pyLower name)) = false →
        validate_image_file file_bytes name decoded = .unsupported) ∧
    (∀ decoded : Option PILImage,
        validate_image_file pdfMagic ("scan.pdf".data) decoded = .pdfExt) ∧
    (∀ decoded : Option PILImage,
        validate_image_file pdfMagic ("scan.png".data) decoded = .disguisedPdf) := by
  refine ⟨by decide, ?_, ?_, ?_, ?_, ?_⟩
  · intro fb dec name h
    have hval := not_valid_ext_of_other_suffix (List.mem_cons_self _ _) h
    simp only [validate_image_file, hval, h]
    simp
  · intro fb dec name h
    have hvid := h
    rw [List.any_eq_true] at h
    obtain ⟨e, he, hsuf⟩ := h
    have hval := not_valid_ext_of_other_suffix (List.mem_cons_of_mem _ he) hsuf
    have hpdf := pdf_not_suffix_of_video hvid
    simp only [validate_image_file, hval, hpdf, hvid]
    simp
  · intro fb dec name h1 h2 h3
    simp only [validate_image_file, h1, h2, h3]
    simp
  · intro dec
    rfl
  · intro dec
    rfl

/-- Witness for C5: the uppercase filename `Xray.PDF` is rejected with the
PDF-extension outcome. -/
theorem extension_gate_spec_witness :
    validate_image_file [] ("Xray.PDF".data) none = .pdfExt :=
  extension_gate_spec.2.1 [] none ("Xray.PDF".data) (by decide)

/-- C7: the orientation advisory labels an image panoramic-like exactly
when `1.4 ≤ width/height ≤ 4.0`; outside that range it attaches the
informational message carrying the ratio rendered to two decimal places;
and it never changes the accept/reject decision — every image that passes
the file gate and the x-ray heuristic is accepted, with `is_panoramic`
recording only the advisory's label. -/
theorem soft_panoramic_spec :
    (∀ img : PILImage,
        ((soft_check_panoramic img).1 = true ↔
          (14/10 ≤ (img.width : ℚ) / img.height ∧ (img.width : ℚ) / img.height ≤ 4))) ∧
    (∀ img : PILImage, (soft_check_panoramic img).1 = false →
        (soft_check_panoramic img).2.1 =
          "Relación ancho/alto " ++ fmt2 ((img.width : ℚ) / img.height) ++
            ":1 (podría no ser panorámica).") ∧
    (∀ (file_bytes : List ℕ) (name : Str) (decoded : Option PILImage) (img : PILImage),
        validate_image_file file_bytes name decoded = .okImage img →
        validate_is_xray img = .ok →
        (validate_dental_xray file_bytes name decoded).is_valid = true ∧
        (validate_dental_xray file_bytes name decoded).details.is_panoramic =
          (soft_check_panoramic img).1) := by
  refine ⟨?_, ?_, ?_⟩
  · intro img
    simp only [soft_check_panoramic]
    split_ifs with h <;> simp [h]
  · intro img
    simp only [soft_check_panoramic]
    split_ifs with h
    · intro hc; cases hc
    · intro _; rfl
  · intro fb name dec img h1 h2
    simp only [validate_dental_xray, h1, h2]
    split_ifs with hp
    · exact ⟨rfl, by rw [hp]⟩
    · rw [Bool.not_eq_true] at hp
      exact ⟨rfl, hp.symm⟩

attribute [local semireducible] Rat.add Rat.sub Rat.mul Rat.inv in
/-- Witness for C7: the square (ratio 1, not panoramic-like) image
`xrayOkImg` passes every hard gate, carries the two-decimal ratio message,
and is accepted anyway. -/
theorem soft_panoramic_spec_witness :
    ((soft_check_panoramic xrayOkImg).2.1 =
      "Relación ancho/alto " ++ fmt2 ((xrayOkImg.width : ℚ) / xrayOkImg.height) ++
        ":1 (podría no ser panorámica).") ∧
    (validate_dental_xray [] ("scan.png".data) (some xrayOkImg)).is_valid = true ∧
    (validate_dental_xray [] ("scan.png".data) (some xrayOkImg)).details.is_panoramic =
      (soft_check_panoramic xrayOkImg).1 :=
  ⟨soft_panoramic_spec.2.1 xrayOkImg (by decide),
   soft_panoramic_spec.2.2 [] ("scan.png".data) (some xrayOkImg) xrayOkImg
     (by decide) (by decide)⟩

/-! ## Theorems about the aggregator -/

lemma class_counts_go (dets : List Detection) (m : Fin 3 → ℕ) (c : Fin 3) :
    (dets.foldl (fun m d => Function.update m d.class_id (m d.class_id + 1)) m) c =
      m c + (dets.filter (fun d => d.class_id = c)).length := by
  induction dets generalizing m with
  | nil => simp
  | cons d ds ih =>
      rw [List.foldl_cons, ih, List.filter_cons]
      by_cases h : d.class_id = c
      · simp [h, Function.update_apply]
        omega
      · simp [h, Function.update_apply, Ne.symm h]

lemma class_counts_eq (dets : List Detection) (c : Fin 3) :
    class_counts dets c = (dets.filter (fun d => d.class_id = c)).length := by
  unfold class_counts
  rw [class_counts_go]
  simp

lemma fin3_cases (c : Fin 3) : c = 0 ∨ c = 1 ∨ c = 2 := by revert c; decide

lemma totalCount_eq_length (dets : List Detection) :
    totalCount dets = dets.length := by
  unfold totalCount
  rw [class_counts_eq, class_counts_eq, class_counts_eq]
  induction dets with
  | nil => rfl
  | cons d ds ih =>
      simp only [List.filter_cons]
      rcases fin3_cases d.class_id with h | h | h <;>
        simp [h, List.length_cons] <;> omega

lemma per_class_sum (dets : List Detection) :
    ((per_class dets).map Prod.snd).sum = totalCount dets := by
  unfold per_class totalCount
  by_cases h0 : 0 < class_counts dets 0 <;>
    by_cases h1 : 0 < class_counts dets 1 <;>
    by_cases h2 : 0 < class_counts dets 2 <;>
    simp [h0, h1, h2] <;> omega

lemma mem_insertFdi (l : List ℤ) (n x : ℤ) :
    x ∈ insertFdi l n ↔ x ∈ l ∨ x = n := by
  unfold insertFdi
  split_ifs with h
  · constructor
    · exact Or.inl
    · rintro (hx | rfl)
      · exact hx
      · exact h
  · simp

lemma insertFdi_nodup (l : List ℤ) (n : ℤ) (h : l.Nodup) :
    (insertFdi l n).Nodup := by
  unfold insertFdi
  split_ifs with hn
  · exact h
  · simp [List.nodup_append, h, hn]

lemma teeth_map_go_mem (dets : List Detection) (m : Fin 3 → List ℤ) (c : Fin 3) (x : ℤ) :
    (x ∈ (dets.foldl
        (fun (m : Fin 3 → List ℤ) d =>
          Function.update m d.class_id (insertFdi (m d.class_id) d.tooth_fdi)) m) c) ↔
      (x ∈ m c ∨ ∃ d ∈ dets, d.class_id = c ∧ d.tooth_fdi = x) := by
  induction dets generalizing m with
  | nil => simp
  | cons d ds ih =>
      rw [List.foldl_cons, ih]
      by_cases h : d.class_id = c
      · subst h
        simp [Function.update_apply, mem_insertFdi]
        tauto
      · simp [Function.update_apply, Ne.symm h, h]

lemma teeth_fdi_map_mem (dets : List Detection) (c : Fin 3) (x : ℤ) :
    x ∈ teeth_fdi_map dets c ↔ ∃ d ∈ dets, d.class_id = c ∧ d.tooth_fdi = x := by
  unfold teeth_fdi_map
  rw [teeth_map_go_mem]
  simp

lemma teeth_map_go_nodup (dets : List Detection) (m : Fin 3 → List ℤ)
    (hm : ∀ c, (m c).Nodup) (c : Fin 3) :
    ((dets.foldl
        (fun (m : Fin 3 → List ℤ) d =>
          Function.update m d.class_id (insertFdi (m d.class_id) d.tooth_fdi)) m) c).Nodup := by
  induction dets generalizing m with
  | nil => exact hm c
  | cons d ds ih =>
      rw [List.foldl_cons]
      apply ih
      intro c'
      rw [Function.update_apply]
      split_ifs with h
      · exact insertFdi_nodup _ _ (hm _)
      · exact hm c'

lemma teeth_fdi_map_nodup (dets : List Detection) (c : Fin 3) :
    (teeth_fdi_map dets c).Nodup := by
  unfold teeth_fdi_map
  exact teeth_map_go_nodup dets _ (fun _ => List.nodup_nil) c

lemma sortedFdi_sorted (dets : List Detection) (c : Fin 3) :
    (sortedFdi dets c).Sorted (· ≤ ·) :=
  List.sorted_mergeSort' _

lemma sortedFdi_perm (dets : List Detection) (c : Fin 3) :
    (sortedFdi dets c).Perm (teeth_fdi_map dets c) :=
  List.mergeSort_perm _ _

lemma sortedFdi_eq_of_perm {dets₁ dets₂ : List Detection} (hp : dets₁.Perm dets₂)
    (c : Fin 3) : sortedFdi dets₁ c = sortedFdi dets₂ c := by
  apply List.eq_of_perm_of_sorted ?_ (sortedFdi_sorted dets₁ c) (sortedFdi_sorted dets₂ c)
  refine (sortedFdi_perm dets₁ c).trans (List.Perm.trans ?_ (sortedFdi_perm dets₂ c).symm)
  rw [List.perm_ext_iff_of_nodup (teeth_fdi_map_nodup _ _) (teeth_fdi_map_nodup _ _)]
  intro a
  rw [teeth_fdi_map_mem, teeth_fdi_map_mem]
  constructor
  · rintro ⟨d, hd, hrest⟩
    exact ⟨d, hp.subset hd, hrest⟩
  · rintro ⟨d, hd, hrest⟩
    exact ⟨d, hp.symm.subset hd, hrest⟩

/-- C3: for every detection list, `total` equals the number of detections
and equals the sum of the per-class counts (also at the payload level of
`run_inference`); a tooth number is in `teeth_fdi_map` of a class exactly
when some detection of that class carries it, each such list is
duplicate-free (each `(class, tooth)` pair appears exactly once); and the
rendered report's per-class tooth lists (`sortedFdi`) are sorted
ascending, enumerate exactly `teeth_fdi_map`, and are invariant under
reordering of the detections. -/
theorem aggregator_consistency :
    (∀ dets : List Detection, totalCount dets = dets.length) ∧
    (∀ dets : List Detection, ((per_class dets).map Prod.snd).sum = totalCount dets) ∧
    (∀ (image : PILImage) (boxes : List RawBox),
        (run_inference image boxes).2.total = boxes.length ∧
        (((run_inference image boxes).2.per_class).map Prod.snd).sum =
          (run_inference image boxes).2.total) ∧
    (∀ (dets : List Detection) (c : Fin 3) (x : ℤ),
        x ∈ teeth_fdi_map dets c ↔ ∃ d ∈ dets, d.class_id = c ∧ d.tooth_fdi = x) ∧
    (∀ (dets : List Detection) (c : Fin 3), (teeth_fdi_map dets c).Nodup) ∧
    (∀ (dets : List Detection) (c : Fin 3), (sortedFdi dets c).Sorted (· ≤ ·)) ∧
    (∀ (dets : List Detection) (c : Fin 3), (sortedFdi dets c).Perm (teeth_fdi_map dets c)) ∧
    (∀ dets₁ dets₂ : List Detection, dets₁.Perm dets₂ →
        ∀ c : Fin 3, sortedFdi dets₁ c = sortedFdi dets₂ c) := by
  refine ⟨totalCount_eq_length, per_class_sum, ?_, teeth_fdi_map_mem,
    teeth_fdi_map_nodup, sortedFdi_sorted, sortedFdi_perm,
    fun _ _ hp c => sortedFdi_eq_of_perm hp c⟩
  intro image boxes
  by_cases h : boxes.length = 0
  · simp only [run_inference, h]
    simp [zeroPayload]
  · simp only [run_inference, if_neg h]
    constructor
    · rw [totalCount_eq_length, List.length_map]
    · rw [per_class_sum]

attribute [local semireducible] Rat.add Rat.sub Rat.mul Rat.inv in
/-- Witness for C3: the reversed two-detection list renders the same
sorted tooth list. -/
theorem aggregator_consistency_witness :
    sortedFdi [detA, detB] 0 = sortedFdi [detB, detA] 0 :=
  aggregator_consistency.2.2.2.2.2.2.2 [detA, detB] [detB, detA] (by decide) 0

/-- C4 counterexample: with zero detector boxes, the returned payload has
`total = 0` but its `report_text` (the fixed no-detections message
`"No se detectaron problemas dentales en esta imagen."`) does NOT contain
the "no significant findings" phrase `"Sin hallazgos significativos"` —
that line belongs to the report builder, which the zero-box early return
never reaches. -/
theorem zero_detections_counterexample :
    (run_inference grayPixelImg []).2.total = 0 ∧
    containsSubstr ((run_inference grayPixelImg []).2.report_text).data
      sinHallazgos.data = false := by decide

/-- C4 (amended): with zero detector boxes, `run_inference` returns a
well-formed (non-error) payload: `total = 0`, the empty per-class dict
(hence every per-class count is zero), empty stats, the three-key teeth
map with empty lists, and `report_text` equal to the fixed no-detections
phrase (not the report builder's "no significant findings" line). -/
theorem zero_detections_payload (image : PILImage) :
    (run_inference image []).2 = zeroPayload ∧
    zeroPayload.total = 0 ∧ zeroPayload.per_class = [] ∧ zeroPayload.stats = [] ∧
    zeroPayload.report_text = noDetectionsText ∧
    (∀ c : Fin 3, zeroPayload.teeth_fdi c = []) :=
  ⟨rfl, rfl, rfl, rfl, rfl, fun _ => rfl⟩

lemma foldl_set_one_getD_zero (boxes : List RawBox) (h : List PILImage) (d : PILImage) :
    (boxes.foldl (fun h b => h.set 1 (drawDetection (h.getD 1 d) b)) h).getD 0 d =
      h.getD 0 d := by
  induction boxes generalizing h with
  | nil => rfl
  | cons b bs ih =>
      rw [List.foldl_cons, ih]
      cases h with
      | nil => rfl
      | cons a t => cases t <;> rfl

/-- C10: `run_inference` never mutates its input image: all drawing is
performed on the heap slot of the copy (`img_draw`, index 1), which is
what the function returns, while the input `image`'s slot (index 0) holds
the unchanged original raster after the call. -/
theorem run_inference_no_mutation (image : PILImage) (boxes : List RawBox) :
    (drawHeap image boxes).getD 0 image = image ∧
    (run_inference image boxes).1 = (drawHeap image boxes).getD 1 image := by
  constructor
  · unfold drawHeap
    rw [foldl_set_one_getD_zero]
    rfl
  · simp only [run_inference]
    split_ifs <;> rfl

end Dental
